import Mathlib

/-!
Verification of the VitaeAgent RAG backend (`backend/app/agent.py`,
`backend/scripts/ingest.py`) against its natural-language specification.

The Python code is shallowly embedded: component calls that may raise
(the RAG chain, the retriever, the language model, the translation
provider) are modelled as functions returning `Except String α`, where
the `error` case stands for a raised exception carrying `str(e)`.
Python dictionaries with varying key sets are modelled as structures
whose optionally-present keys have `Option` type (`none` = key absent).
-/

namespace VitaeAgent

/-- Chunk metadata dictionary as read by `_extract_source_info`
(`agent.py`).  Each field models `metadata.get(key, default)`: `none`
means the key is absent.  `page` is the integer page index stored by
the PDF loader (0-based). -/
structure Metadata where
  source_type : Option String
  source : Option String
  page : Option Nat
  title : Option String
  url : Option String
  repo_name : Option String
deriving DecidableEq

/-- `VitaeAgent._extract_source_info` (`agent.py` lines 252-274):
derives the human-readable source label from chunk metadata. -/
def extract_source_info (metadata : Metadata) : String :=
  let source_type := metadata.source_type.getD "unknown"
  if source_type = "pdf" then
    let source := metadata.source.getD "Unknown PDF"
    match metadata.page with
    | some page => source ++ ", Page " ++ Nat.repr (page + 1)
    | none => source
  else if source_type = "text" then
    metadata.source.getD "Unknown Text File"
  else if source_type = "blog" then
    let title := metadata.title.getD "Blog Post"
    let url := metadata.url.getD ""
    if url ≠ "" then title ++ " - " ++ url else title
  else if source_type = "github" then
    "GitHub: " ++ metadata.repo_name.getD "Unknown Repository"
  else
    metadata.source.getD "Unknown Source"

/-- Python's `str.lower()` as used on language codes: lower-cases every
character. -/
def lower (s : String) : String := ⟨s.data.map Char.toLower⟩

/-- The optional Google Translate client: `detect` returns the detected
language (`detection['language']`), `translate` takes the text, the
target language and the source language and returns the translated
text (`result['translatedText']`).  Either call may raise, modelled by
the `Except.error` case. -/
structure Translator where
  detect : String → Except String String
  translate : String → String → String → Except String String

/-- `VitaeAgent.translate_text` (`agent.py` lines 276-301). -/
def translate_text (translator : Option Translator) (text target_language : String) : String :=
  match translator with
  | none => text
  | some tr =>
    if lower target_language = "en" ∨ lower target_language = "english" then text
    else
      match tr.detect text with
      | .error _ => text
      | .ok source_lang =>
        if source_lang = target_language then text
        else
          match tr.translate text target_language source_lang with
          | .error _ => text
          | .ok translated => translated

/-- A document returned by the retriever (`langchain` `Document`):
`page_content` plus its metadata. -/
structure RagDoc where
  page_content : String
  metadata : Metadata
deriving DecidableEq

/-- One entry of the `sources` list built by `chat`. -/
structure SourceEntry where
  source : String
  content_preview : String
deriving DecidableEq

/-- The dictionary returned by `chat` (`agent.py` lines 338-356).
The success dictionary carries `source_count` and no `error` key; the
fallback dictionary carries `error` and no `source_count` key, so both
fields are `Option`s recording key presence. -/
structure Answer where
  response : String
  sources : List SourceEntry
  original_query : String
  processed_query : String
  language : String
  source_count : Option Nat
  error : Option String
deriving DecidableEq

/-- The components `chat` calls that may raise: `rag_chain.invoke` and
`retriever.get_relevant_documents`. -/
structure ChatEnv where
  rag_chain : String → Except String String
  get_relevant_documents : String → Except String (List RagDoc)

/-- `doc.page_content[:200] + "..." if len(doc.page_content) > 200 else
doc.page_content` (`agent.py` line 335). -/
def content_preview (s : String) : String :=
  if s.length > 200 then s.take 200 ++ "..." else s

/-- The fixed apologetic message of the error-fallback branch of `chat`
(`agent.py` line 350). -/
def error_response : String :=
  "I apologize, but I encountered an error while processing your question. Please try again or rephrase your question."

/-- The fallback dictionary returned when any exception escapes the body
of `chat` (`agent.py` lines 349-356). -/
def error_answer (query language e : String) : Answer :=
  { response := error_response
    sources := []
    original_query := query
    processed_query := query
    language := language
    source_count := none
    error := some e }

/-- `language.lower() not in ['en', 'english']` (`agent.py` lines 317, 325). -/
def non_english (language : String) : Bool :=
  !(lower language == "en" || lower language == "english")

/-- The query actually sent to the RAG chain: translated to English
when a non-English language is requested and a translator is configured
(`agent.py` lines 316-318). -/
def english_query (translator : Option Translator) (query language : String) : String :=
  if non_english language && translator.isSome then
    translate_text translator query "en"
  else query

/-- `VitaeAgent.chat` (`agent.py` lines 303-356). -/
def chat (env : ChatEnv) (translator : Option Translator)
    (query : String) (language : String) : Answer :=
  let q := english_query translator query language
  match env.rag_chain q with
  | .error e => error_answer query language e
  | .ok response =>
    let final_response :=
      if non_english language && translator.isSome then
        translate_text translator response language
      else response
    match env.get_relevant_documents q with
    | .error e => error_answer query language e
    | .ok source_docs =>
      let sources := source_docs.map fun doc =>
        { source := extract_source_info doc.metadata
          content_preview := content_preview doc.page_content : SourceEntry }
      { response := final_response
        sources := sources
        original_query := query
        processed_query := q
        language := language
        source_count := some sources.length
        error := none }

/-- The components probed by `health_check`, plus the configuration
fields it copies verbatim into the status dictionary. -/
structure HealthEnv where
  get_relevant_documents : String → Except String (List RagDoc)
  llm_predict : String → Except String String
  translator_available : Bool
  model_provider : String
  embedding_provider : String

/-- The status dictionary built by `health_check`.  `error` is the
optionally-present error key. -/
structure HealthStatus where
  retriever_ready : Bool
  llm_ready : Bool
  database_count : Nat
  translator_available : Bool
  model_provider : String
  embedding_provider : String
  error : Option String
deriving DecidableEq

/-- `VitaeAgent.health_check` (`agent.py` lines 373-398): the dictionary
is mutated field by field inside `try`, so a failure of the retriever
probe leaves the initial values, and a failure of the LLM probe leaves
`retriever_ready` and `database_count` already set. -/
def health_check (env : HealthEnv) : HealthStatus :=
  let status : HealthStatus :=
    { retriever_ready := false
      llm_ready := false
      database_count := 0
      translator_available := env.translator_available
      model_provider := env.model_provider
      embedding_provider := env.embedding_provider
      error := none }
  match env.get_relevant_documents "test" with
  | .error e => { status with error := some e }
  | .ok test_results =>
    match env.llm_predict "Hello" with
    | .error e =>
      { status with
        retriever_ready := true
        database_count := test_results.length
        error := some e }
    | .ok test_response =>
      { status with
        retriever_ready := true
        database_count := test_results.length
        llm_ready := decide (0 < test_response.length) }

/-- `k = 5` from `as_retriever(search_kwargs={"k": 5})` (`agent.py`
lines 165-168). -/
def retriever_k : Nat := 5

/-- Model of the Chroma similarity retriever backing
`get_relevant_documents`: ranks the stored entries by similarity to the
query (similarity modelled by an arbitrary scoring function) and
returns the `k` best, hence `min k count` entries. -/
def similarity_retrieve (score : String → RagDoc → Nat)
    (index : List RagDoc) (k : Nat) (query : String) : List RagDoc :=
  (index.mergeSort fun a b => Nat.ble (score query b) (score query a)).take k

/-- `health_check`'s environment when the retriever is backed by a
vector index holding `index` and the LLM probe answers `llm`. -/
def health_env_of_index (score : String → RagDoc → Nat) (index : List RagDoc)
    (llm : String → Except String String) (translator_available : Bool) : HealthEnv :=
  { get_relevant_documents := fun q => .ok (similarity_retrieve score index retriever_k q)
    llm_predict := llm
    translator_available := translator_available
    model_provider := "ollama"
    embedding_provider := "local" }

end VitaeAgent

namespace DataIngestionEngine

open VitaeAgent

/-- `chunk_size=1000` from the `RecursiveCharacterTextSplitter`
configuration (`ingest.py` lines 71-76). -/
def chunk_size : Nat := 1000

/-- `chunk_overlap=200` from the same configuration. -/
def chunk_overlap : Nat := 200

/-- The configured separator priority list `["\n\n", "\n", " ", ""]`
(`ingest.py` line 75); the final empty separator (character-level
splitting) is modelled by `char_windows` below. -/
def separators : List String := ["\n\n", "\n", " "]

/-- Modelled from the spec: the character-level stage of the recursive
splitter (the `""` separator of `RecursiveCharacterTextSplitter`, whose
implementation is langchain library code not part of this repository).
Per the spec, text that no larger separator can break is emitted as
overlapping windows of at most `chunk_size` characters, with adjacent
windows overlapping by `chunk_overlap` characters. -/
def char_windows (t : List Char) : List (List Char) :=
  if _h : t.length ≤ chunk_size then [t]
  else t.take chunk_size :: char_windows (t.drop (chunk_size - chunk_overlap))
termination_by t.length
decreasing_by
  simp only [List.length_drop, chunk_size, chunk_overlap] at *
  omega

/-- Modelled from the spec: `RecursiveCharacterTextSplitter.split_text`
(langchain library code not part of this repository).  Per the spec, it
splits by a prioritized list of separator boundaries recursively,
preferring the largest separator that keeps resulting chunks under
`chunk_size`, falling back to character-level overlapping windows. -/
def recursive_split : List String → String → List String
  | [], text =>
    if text.length ≤ chunk_size then [text]
    else (char_windows text.data).map List.asString
  | sep :: rest, text =>
    if text.length ≤ chunk_size then [text]
    else (text.splitOn sep).flatMap (recursive_split rest)

/-- A chunk produced by `split_documents`: a sub-span of a document's
text carrying the document's metadata forward. -/
structure Chunk where
  text : String
  metadata : Metadata
deriving DecidableEq

/-- Modelled from the spec: `text_splitter.split_documents(documents)`
(`ingest.py` line 302): each document's content is split and every
resulting chunk inherits its source document's metadata unchanged. -/
def split_documents (documents : List RagDoc) : List Chunk :=
  documents.flatMap fun doc =>
    (recursive_split separators doc.page_content).map fun t =>
      { text := t, metadata := doc.metadata }

/-- `f"chunk_{i}"` (`ingest.py` line 308). -/
def chunk_id (i : Nat) : String := "chunk_" ++ Nat.repr i

/-- `ids = [f"chunk_{i}" for i in range(len(chunks))]` (`ingest.py`
line 308): the ids handed to `collection.add` for a run that produced
`chunks`. -/
def storage_ids (chunks : List Chunk) : List String :=
  (List.range chunks.length).map chunk_id

end DataIngestionEngine

namespace VitaeAgent

/-- Metadata dictionary with no keys set. -/
def empty_metadata : Metadata :=
  { source_type := none, source := none, page := none, title := none
    url := none, repo_name := none }

/-- A chat environment whose RAG chain raises (models an LLM outage). -/
def chat_env_down : ChatEnv :=
  { rag_chain := fun _ => .error "down"
    get_relevant_documents := fun _ => .ok [] }

/-- A vector index holding six entries. -/
def six_docs : List RagDoc :=
  [{ page_content := "d1", metadata := empty_metadata },
   { page_content := "d2", metadata := empty_metadata },
   { page_content := "d3", metadata := empty_metadata },
   { page_content := "d4", metadata := empty_metadata },
   { page_content := "d5", metadata := empty_metadata },
   { page_content := "d6", metadata := empty_metadata }]

/-- A translator whose detection always reports German. -/
def tr_detect_de : Translator :=
  { detect := fun _ => .ok "de", translate := fun _ _ _ => .ok "übersetzt" }

/-- A translator whose detection call raises. -/
def tr_detect_err : Translator :=
  { detect := fun _ => .error "detect failed", translate := fun _ _ _ => .ok "übersetzt" }

/-- A translator whose translate call raises. -/
def tr_translate_err : Translator :=
  { detect := fun _ => .ok "de", translate := fun _ _ _ => .error "quota exceeded" }

end VitaeAgent

/-- Numeric value of a decimal digit character. -/
def digit_val (c : Char) : Nat := c.toNat - 48

/-- Value of a decimal digit string, most significant digit first. -/
def digits_val (l : List Char) : Nat := l.foldl (fun a c => 10 * a + digit_val c) 0

/-! ### Helper lemmas: decimal rendering is injective -/

theorem digit_val_digitChar (d : Nat) (h : d < 10) : digit_val (Nat.digitChar d) = d := by
  interval_cases d <;> decide

theorem toDigitsCore_append (b f : Nat) :
    ∀ (n : Nat) (acc : List Char),
      Nat.toDigitsCore b f n acc = Nat.toDigitsCore b f n [] ++ acc := by
  induction f with
  | zero => intro n acc; simp [Nat.toDigitsCore]
  | succ f ih =>
    intro n acc
    simp only [Nat.toDigitsCore]
    by_cases h : n / b = 0
    · simp [h]
    · simp only [h, if_false]
      rw [ih (n / b) (Nat.digitChar (n % b) :: acc), ih (n / b) [Nat.digitChar (n % b)]]
      simp

theorem digits_val_snoc (l : List Char) (c : Char) :
    digits_val (l ++ [c]) = 10 * digits_val l + digit_val c := by
  simp [digits_val, List.foldl_append]

theorem digits_val_toDigitsCore :
    ∀ (f n : Nat), n < 10 ^ f → digits_val (Nat.toDigitsCore 10 f n []) = n := by
  intro f
  induction f with
  | zero => intro n h; interval_cases n; simp [Nat.toDigitsCore, digits_val]
  | succ f ih =>
    intro n h
    simp only [Nat.toDigitsCore]
    by_cases h10 : n / 10 = 0
    · simp only [h10, if_true, digits_val, List.foldl]
      have := digit_val_digitChar (n % 10) (Nat.mod_lt _ (by norm_num))
      omega
    · simp only [h10, if_false]
      rw [toDigitsCore_append, digits_val_snoc,
        ih (n / 10) (by rw [pow_succ, mul_comm] at h; exact Nat.div_lt_of_lt_mul h),
        digit_val_digitChar (n % 10) (Nat.mod_lt _ (by norm_num))]
      omega

theorem digits_val_repr (n : Nat) : digits_val (Nat.repr n).data = n := by
  have hn : n < 10 ^ (n + 1) :=
    lt_of_lt_of_le (Nat.lt_pow_self (by norm_num) n)
      (Nat.pow_le_pow_right (by norm_num) (Nat.le_succ n))
  simpa [Nat.repr, Nat.toDigits, List.asString] using digits_val_toDigitsCore (n + 1) n hn

theorem nat_repr_injective : Function.Injective Nat.repr := by
  intro a b h
  have := congrArg (fun s => digits_val s.data) h
  simpa [digits_val_repr] using this

theorem chunk_id_injective : Function.Injective DataIngestionEngine.chunk_id := by
  intro a b h
  have hd := congrArg String.data h
  simp only [DataIngestionEngine.chunk_id, String.data_append] at hd
  have : (Nat.repr a).data = (Nat.repr b).data := by simpa using hd
  exact nat_repr_injective (String.ext this)

/-! ### Helper lemmas: chunker size bound -/

namespace DataIngestionEngine

theorem char_windows_le (t : List Char) :
    ∀ c ∈ char_windows t, c.length ≤ chunk_size := by
  induction t using char_windows.induct with
  | case1 t h =>
    intro c hc
    rw [char_windows] at hc
    simp only [h, dif_pos, List.mem_singleton] at hc
    exact hc ▸ h
  | case2 t h ih =>
    intro c hc
    rw [char_windows] at hc
    simp only [h, dif_neg] at hc
    cases hc with
    | head => simp [List.length_take]
    | tail _ hc => exact ih c hc

theorem recursive_split_le (seps : List String) :
    ∀ (text : String), ∀ c ∈ recursive_split seps text, c.length ≤ chunk_size := by
  induction seps with
  | nil =>
    intro text c hc
    rw [recursive_split] at hc
    split at hc
    · next h => simp only [List.mem_singleton] at hc; exact hc ▸ h
    · simp only [List.mem_map] at hc
      obtain ⟨cs, hcs, rfl⟩ := hc
      simpa [List.asString, String.length] using char_windows_le text.data cs hcs
  | cons sep rest ih =>
    intro text c hc
    rw [recursive_split] at hc
    split at hc
    · next h => simp only [List.mem_singleton] at hc; exact hc ▸ h
    · simp only [List.mem_flatMap] at hc
      obtain ⟨piece, _, hc⟩ := hc
      exact ih piece c hc

end DataIngestionEngine

/-! ### Claim theorems -/

open VitaeAgent DataIngestionEngine

/-- C1: whatever exception any internal component raises, `chat` never
raises: on an internal exception (the RAG chain or the retriever
raising on the processed query) it returns the fallback Answer with the
fixed apologetic message, an empty source list, the original query, and
the error detail attached as a string. -/
theorem chat_exception_fallback (env : ChatEnv) (translator : Option Translator)
    (query language : String) :
    (∀ e, env.rag_chain (english_query translator query language) = .error e →
        chat env translator query language =
          { response := error_response, sources := [], original_query := query,
            processed_query := query, language := language,
            source_count := none, error := some e }) ∧
    (∀ r e, env.rag_chain (english_query translator query language) = .ok r →
        env.get_relevant_documents (english_query translator query language) = .error e →
        chat env translator query language =
          { response := error_response, sources := [], original_query := query,
            processed_query := query, language := language,
            source_count := none, error := some e }) := by
  constructor
  · intro e he
    simp [chat, he, error_answer]
  · intro r e hr hd
    simp [chat, hr, hd, error_answer]

/-- C1 witness: a RAG chain outage at a concrete query yields exactly
the fallback Answer. -/
theorem chat_exception_fallback_witness :
    chat chat_env_down none "who are you" "en" =
      { response := error_response, sources := [], original_query := "who are you",
        processed_query := "who are you", language := "en",
        source_count := none, error := some "down" } :=
  (chat_exception_fallback chat_env_down none "who are you" "en").1 "down" rfl

/-- C2 counterexample: on an internal exception the returned dictionary
has no `source_count` key (modelled as `none`), so the claim that every
returned value carries `source_count` fails. -/
theorem chat_error_answer_lacks_source_count :
    (chat chat_env_down none "hi" "en").error = some "down" ∧
    (chat chat_env_down none "hi" "en").source_count = none := by decide

/-- C2 amended: the Answer always carries `response`, `sources`,
`original_query`, `processed_query` and `language`; it carries
`source_count` exactly on the success path, while the error path
carries the `error` key and no `source_count`. -/
theorem chat_source_count_presence (env : ChatEnv) (translator : Option Translator)
    (query language : String) :
    ((chat env translator query language).error = none ∧
      (chat env translator query language).source_count =
        some (chat env translator query language).sources.length) ∨
    ((chat env translator query language).error.isSome ∧
      (chat env translator query language).source_count = none) := by
  cases hr : env.rag_chain (english_query translator query language) with
  | error e => right; simp [chat, hr, error_answer]
  | ok r =>
    cases hd : env.get_relevant_documents (english_query translator query language) with
    | error e => right; simp [chat, hr, hd, error_answer]
    | ok docs => left; simp [chat, hr, hd]

/-- C3: the human-readable source label is derived per `source_type`:
the PDF example renders with a 1-based page, the github example renders
with the `GitHub:` prefix, a text chunk renders as its source filename,
a blog chunk (with a title and a non-empty url) renders as
`title - url`, and an unknown `source_type` renders as the raw `source`
field, defaulting to `"Unknown Source"` when absent. -/
theorem extract_source_info_labels :
    (extract_source_info
        { source_type := some "pdf", source := some "cv.pdf", page := some 2,
          title := none, url := none, repo_name := none } = "cv.pdf, Page 3") ∧
    (extract_source_info
        { source_type := some "github", source := none, page := none,
          title := none, url := none, repo_name := some "vitae-agent" } =
      "GitHub: vitae-agent") ∧
    (∀ md fname, md.source_type = some "text" → md.source = some fname →
        extract_source_info md = fname) ∧
    (∀ md title url, md.source_type = some "blog" → md.title = some title →
        md.url = some url → url ≠ "" →
        extract_source_info md = title ++ " - " ++ url) ∧
    (∀ md st, md.source_type = some st →
        st ≠ "pdf" → st ≠ "text" → st ≠ "blog" → st ≠ "github" →
        extract_source_info md = md.source.getD "Unknown Source") := by
  refine ⟨by decide, by decide, ?_, ?_, ?_⟩
  · intro md fname h1 h2
    simp [extract_source_info, h1, h2]
  · intro md title url h1 h2 h3 h4
    simp [extract_source_info, h1, h2, h3, h4]
  · intro md st h1 h2 h3 h4 h5
    simp [extract_source_info, h1, h2, h3, h4, h5]


/-- C3 witness: the general clauses applied at concrete metadata. -/
theorem extract_source_info_labels_witness :
    (extract_source_info
        { source_type := some "text", source := some "notes.md", page := none,
          title := none, url := none, repo_name := none } = "notes.md") ∧
    (extract_source_info
        { source_type := some "blog", source := none, page := none,
          title := some "My Post", url := some "https://b.io/p", repo_name := none } =
      "My Post" ++ " - " ++ "https://b.io/p") ∧
    (extract_source_info
        { source_type := some "linkedin", source := some "profile", page := none,
          title := none, url := none, repo_name := none } =
      (some "profile").getD "Unknown Source") :=
  ⟨extract_source_info_labels.2.2.1 _ "notes.md" rfl rfl,
   extract_source_info_labels.2.2.2.1 _ "My Post" "https://b.io/p" rfl rfl rfl (by decide),
   extract_source_info_labels.2.2.2.2 _ "linkedin" rfl
     (by decide) (by decide) (by decide) (by decide)⟩

/-- C5: with no translator configured, `chat(q, "fr")` has the same
response text and the same processed query as `chat(q, "en")` against
the same retriever and language model, while the two language fields
are "fr" and "en" respectively. -/
theorem chat_fr_matches_en_without_translator (env : ChatEnv) (q : String) :
    (chat env none q "fr").response = (chat env none q "en").response ∧
    (chat env none q "fr").processed_query = (chat env none q "en").processed_query ∧
    (chat env none q "fr").language = "fr" ∧
    (chat env none q "en").language = "en" := by
  have h : ∀ l, english_query none q l = q := fun l => by simp [english_query]
  cases hr : env.rag_chain q with
  | error e => simp [chat, h, hr, error_answer]
  | ok r =>
    cases hd : env.get_relevant_documents q with
    | error e => simp [chat, h, hr, hd, error_answer]
    | ok docs => simp [chat, h, hr, hd]

/-- C6: `chat(q, "en")` never consults the translator: for every
configured translator its result coincides with the result when no
translator is configured at all. -/
theorem chat_en_independent_of_translator (env : ChatEnv)
    (translator : Option Translator) (q : String) :
    chat env translator q "en" = chat env none q "en" := by
  have h : non_english "en" = false := by decide
  simp [chat, english_query, h]

/-- C7: `translate_text` returns its input unchanged when the
translator is unconfigured, when the target language is English, when
detection raises, when the detected source language equals the target,
and when the translation call raises. -/
theorem translate_text_noop_cases (tr : Translator) (text target_language : String) :
    (translate_text none text target_language = text) ∧
    (lower target_language = "en" ∨ lower target_language = "english" →
        translate_text (some tr) text target_language = text) ∧
    (∀ e, tr.detect text = .error e →
        translate_text (some tr) text target_language = text) ∧
    (∀ src, tr.detect text = .ok src → src = target_language →
        translate_text (some tr) text target_language = text) ∧
    (∀ src e, tr.detect text = .ok src →
        tr.translate text target_language src = .error e →
        translate_text (some tr) text target_language = text) := by
  refine ⟨rfl, ?_, ?_, ?_, ?_⟩
  · intro h
    simp [translate_text, h]
  · intro e he
    by_cases hl : lower target_language = "en" ∨ lower target_language = "english" <;>
      simp [translate_text, hl, he]
  · intro src hs heq
    by_cases hl : lower target_language = "en" ∨ lower target_language = "english" <;>
      simp [translate_text, hl, hs, heq]
  · intro src e hs ht
    by_cases hl : lower target_language = "en" ∨ lower target_language = "english" <;>
      by_cases hst : src = target_language <;>
        simp [translate_text, hl, hs, hst, ht]

/-- C7 witness: the no-op clauses applied to concrete translators and
texts. -/
theorem translate_text_noop_cases_witness :
    (translate_text none "hallo" "fr" = "hallo") ∧
    (translate_text (some tr_detect_de) "hello" "EN" = "hello") ∧
    (translate_text (some tr_detect_err) "hallo" "fr" = "hallo") ∧
    (translate_text (some tr_detect_de) "hallo" "de" = "hallo") ∧
    (translate_text (some tr_translate_err) "hallo" "fr" = "hallo") :=
  ⟨(translate_text_noop_cases tr_detect_de "hallo" "fr").1,
   (translate_text_noop_cases tr_detect_de "hello" "EN").2.1 (Or.inl (by decide)),
   (translate_text_noop_cases tr_detect_err "hallo" "fr").2.2.1 "detect failed" rfl,
   (translate_text_noop_cases tr_detect_de "hallo" "de").2.2.2.1 "de" rfl rfl,
   (translate_text_noop_cases tr_translate_err "hallo" "fr").2.2.2.2 "de" "quota exceeded" rfl rfl⟩

/-- C4: divergence evidence.  On an index holding six entries and a
healthy LLM, `health_check` reports `database_count = 5` — the length
of the top-k retrieval for the canned query — and not the index
count `6` claimed by the spec. -/
theorem health_check_reports_topk_not_count :
    six_docs.length = 6 ∧
    (health_check (health_env_of_index (fun _ _ => 0) six_docs
        (fun _ => .ok "ok") false)).retriever_ready = true ∧
    (health_check (health_env_of_index (fun _ _ => 0) six_docs
        (fun _ => .ok "ok") false)).database_count = 5 := by
  refine ⟨rfl, ?_, ?_⟩ <;>
    simp [health_check, health_env_of_index, similarity_retrieve, retriever_k,
      List.length_take, List.length_mergeSort, six_docs]

/-- C10: the `database_count` reported by `health_check` over an index
is the length of a top-5 retrieval, hence at most 5, and differs from
the index size as soon as the index holds more than 5 entries. -/
theorem health_check_database_count_le_k (score : String → RagDoc → Nat)
    (index : List RagDoc) (llm : String → Except String String) (ta : Bool) :
    (health_check (health_env_of_index score index llm ta)).database_count ≤ 5 ∧
    (5 < index.length →
      (health_check (health_env_of_index score index llm ta)).database_count ≠
        index.length) := by
  have hlen : (similarity_retrieve score index retriever_k "test").length =
      min 5 index.length := by
    simp [similarity_retrieve, retriever_k, List.length_take, List.length_mergeSort]
  cases hl : llm "Hello" with
  | error e =>
    constructor
    · simp only [health_check, health_env_of_index, hl, hlen]; omega
    · intro h; simp only [health_check, health_env_of_index, hl, hlen]; omega
  | ok r =>
    constructor
    · simp only [health_check, health_env_of_index, hl, hlen]; omega
    · intro h; simp only [health_check, health_env_of_index, hl, hlen]; omega

/-- C10 witness: on the concrete six-entry index the reported count is
at most 5 and differs from the index size. -/
theorem health_check_database_count_le_k_witness :
    (health_check (health_env_of_index (fun _ _ => 0) six_docs
        (fun _ => .ok "ok") false)).database_count ≤ 5 ∧
    (health_check (health_env_of_index (fun _ _ => 0) six_docs
        (fun _ => .ok "ok") false)).database_count ≠ six_docs.length :=
  ⟨(health_check_database_count_le_k (fun _ _ => 0) six_docs (fun _ => .ok "ok") false).1,
   (health_check_database_count_le_k (fun _ _ => 0) six_docs (fun _ => .ok "ok") false).2
     (by decide)⟩

/-- C8: every chunk produced by the (spec-modelled) recursive chunker
over any document sequence has text length at most the configured
maximum of 1000. -/
theorem split_documents_chunk_size (documents : List RagDoc) :
    ∀ chunk ∈ split_documents documents, chunk.text.length ≤ 1000 := by
  intro ch hch
  simp only [split_documents, List.mem_flatMap, List.mem_map] at hch
  obtain ⟨doc, _, t, ht, rfl⟩ := hch
  exact recursive_split_le separators doc.page_content t ht

/-- C8 witness: a one-document run with short content yields that
document back as its single chunk, within the size bound. -/
theorem split_documents_chunk_size_witness :
    ({ text := "hello world", metadata := empty_metadata } : Chunk) ∈
      split_documents [{ page_content := "hello world", metadata := empty_metadata }] ∧
    ({ text := "hello world", metadata := empty_metadata } : Chunk).text.length ≤ 1000 :=
  ⟨by decide,
   split_documents_chunk_size
     [{ page_content := "hello world", metadata := empty_metadata }] _ (by decide)⟩

/-- C9: in a run that stores `n` chunks the ids are exactly `chunk_0`
through `chunk_(n-1)` in chunk order, pairwise distinct within the run,
determined only by the number of chunks and each chunk's position (not
by content or source), so any two nonempty runs assign overlapping
ids. -/
theorem storage_ids_spec :
    (∀ (chunks : List Chunk) (i : Nat), i < chunks.length →
        (storage_ids chunks)[i]? = some ("chunk_" ++ Nat.repr i)) ∧
    (∀ chunks : List Chunk, (storage_ids chunks).Nodup) ∧
    (∀ chunks chunks' : List Chunk, chunks.length = chunks'.length →
        storage_ids chunks = storage_ids chunks') ∧
    (∀ chunks chunks' : List Chunk, chunks ≠ [] → chunks' ≠ [] →
        ∃ s, s ∈ storage_ids chunks ∧ s ∈ storage_ids chunks') := by
  refine ⟨?_, ?_, ?_, ?_⟩
  · intro chunks i hi
    simp [storage_ids, List.getElem?_map, List.getElem?_range hi, chunk_id]
  · intro chunks
    exact List.Nodup.map chunk_id_injective (List.nodup_range _)
  · intro c1 c2 h
    simp [storage_ids, h]
  · intro c1 c2 h1 h2
    have m : ∀ c : List Chunk, c ≠ [] → chunk_id 0 ∈ storage_ids c := by
      intro c hc
      apply List.mem_map_of_mem
      simp [List.mem_range]
      exact List.length_pos.mpr hc
    exact ⟨chunk_id 0, m c1 h1, m c2 h2⟩

/-- C9 witness: two concrete single-chunk runs with different contents
receive the same id list, and each overlaps a two-chunk run. -/
theorem storage_ids_spec_witness :
    (storage_ids [{ text := "a", metadata := VitaeAgent.empty_metadata }])[0]? =
      some ("chunk_" ++ Nat.repr 0) ∧
    storage_ids [{ text := "a", metadata := VitaeAgent.empty_metadata }] =
      storage_ids [{ text := "b", metadata := VitaeAgent.empty_metadata }] ∧
    ∃ s, s ∈ storage_ids [{ text := "a", metadata := VitaeAgent.empty_metadata }] ∧
      s ∈ storage_ids [{ text := "b", metadata := VitaeAgent.empty_metadata },
        { text := "c", metadata := VitaeAgent.empty_metadata }] :=
  ⟨storage_ids_spec.1 _ 0 (by decide),
   storage_ids_spec.2.2.1 _ _ (by decide),
   storage_ids_spec.2.2.2 _ _ (by decide) (by decide)⟩
